import Mathlib

/-!
Verification of the InvoicePro invoice calculator and invoice record
manager against its natural-language specification.

The numeric type of the TypeScript source is the IEEE double; following
the spec's own precision caveat ("standard floating-point semantics", §9),
arithmetic is embedded over `ℚ`, the exact idealization of the source's
arithmetic expressions.

`src/utils/calculations.ts` is embedded function by function; the invoice
record manager is the `useInvoices` hook, whose local-state ("mock user")
branch is the in-repository embodiment of each operation: every operation
is embedded as a pure state transformer on the list of loaded invoices,
with clock reads (`Date.now()`, `new Date().toISOString()`,
`new Date().getFullYear()`) passed as explicit parameters.
-/

namespace InvoicePro

/-- Structure `InvoiceItem` from `src/types` (the fields read by the calculator:
`quantity`, `price`, optional `discount`); `id`, `name`, `description`
are carried but never read by the arithmetic. -/
structure InvoiceItem where
  id : String
  name : String
  description : Option String
  quantity : ℚ
  price : ℚ
  discount : Option ℚ
  deriving Repr, DecidableEq

/-- Function `calculateItemTotal` from `src/utils/calculations.ts`:
`subtotal = quantity * price`, `discountAmount = (discount || 0) / 100 * subtotal`,
result `subtotal - discountAmount`.  JS `item.discount || 0` yields `0` both
when `discount` is absent and when it is `0`, which is `Option.getD 0`. -/
def calculateItemTotal (item : InvoiceItem) : ℚ :=
  let subtotal := item.quantity * item.price
  let discountAmount := (item.discount.getD 0) / 100 * subtotal
  subtotal - discountAmount

/-- Function `calculateInvoiceSubtotal` from `src/utils/calculations.ts`:
`items.reduce((sum, item) => sum + calculateItemTotal(item), 0)`. -/
def calculateInvoiceSubtotal (items : List InvoiceItem) : ℚ :=
  items.foldl (fun sum item => sum + calculateItemTotal item) 0

/-- Function `calculateTaxAmount` from `src/utils/calculations.ts`. -/
def calculateTaxAmount (subtotal : ℚ) (taxRate : ℚ) : ℚ :=
  (subtotal * taxRate) / 100

/-- Result record of `calculateInvoiceTotal`. -/
structure InvoiceTotals where
  discountAmount : ℚ
  taxAmount : ℚ
  total : ℚ
  deriving Repr, DecidableEq

/-- Function `calculateInvoiceTotal` from `src/utils/calculations.ts`. -/
def calculateInvoiceTotal (subtotal : ℚ) (discount : ℚ) (taxRate : ℚ) :
    InvoiceTotals :=
  let discountAmount := (discount / 100) * subtotal
  let discountedSubtotal := subtotal - discountAmount
  let taxAmount := calculateTaxAmount discountedSubtotal taxRate
  let total := discountedSubtotal + taxAmount
  { discountAmount := discountAmount, taxAmount := taxAmount, total := total }

/-- C1: for every subtotal `s`, discount percentage `d` and tax rate `t`,
`calculateInvoiceTotal s d t` returns `discountAmount = s*d/100`,
`taxAmount = (s - discountAmount)*t/100` (tax on the discounted subtotal),
and `total = s - discountAmount + taxAmount`. -/
theorem calculateInvoiceTotal_spec (s d t : ℚ) :
    (calculateInvoiceTotal s d t).discountAmount = s * d / 100 ∧
    (calculateInvoiceTotal s d t).taxAmount = (s - s * d / 100) * t / 100 ∧
    (calculateInvoiceTotal s d t).total =
      s - (calculateInvoiceTotal s d t).discountAmount
        + (calculateInvoiceTotal s d t).taxAmount := by
  refine ⟨by simp [calculateInvoiceTotal]; ring, ?_, ?_⟩
  · simp [calculateInvoiceTotal, calculateTaxAmount]; ring
  · simp [calculateInvoiceTotal, calculateTaxAmount]

/-- C2: for every item with `quantity ≥ 1`, `price ≥ 0` and discount either
omitted (treated as `0`) or in `[0, 100]`, the line amount equals
`quantity * price * (1 - discount/100)` and is nonnegative. -/
theorem calculateItemTotal_spec (item : InvoiceItem)
    (hq : 1 ≤ item.quantity) (hp : 0 ≤ item.price)
    (hd0 : 0 ≤ item.discount.getD 0) (hd100 : item.discount.getD 0 ≤ 100) :
    calculateItemTotal item =
      item.quantity * item.price * (1 - item.discount.getD 0 / 100) ∧
    0 ≤ calculateItemTotal item := by
  constructor
  · simp [calculateItemTotal]; ring
  · have hqp : 0 ≤ item.quantity * item.price :=
      mul_nonneg (le_trans zero_le_one hq) hp
    have hfac : 0 ≤ 1 - item.discount.getD 0 / 100 := by linarith
    have : 0 ≤ item.quantity * item.price * (1 - item.discount.getD 0 / 100) :=
      mul_nonneg hqp hfac
    simp only [calculateItemTotal]
    nlinarith [this]

/-- Closed instance of `calculateItemTotal_spec` at a concrete item. -/
theorem calculateItemTotal_spec_witness :
    calculateItemTotal
        { id := "i1", name := "n", description := none,
          quantity := 2, price := 100, discount := some 10 } =
      2 * 100 * (1 - (10 : ℚ) / 100) ∧
    (0 : ℚ) ≤ calculateItemTotal
        { id := "i1", name := "n", description := none,
          quantity := 2, price := 100, discount := some 10 } := by
  have h := calculateItemTotal_spec
    { id := "i1", name := "n", description := none,
      quantity := 2, price := 100, discount := some 10 }
    (by norm_num) (by norm_num) (by norm_num) (by norm_num)
  simpa using h

/-- A `foldl` with running addition equals the sum of the mapped list. -/
theorem foldl_add_map (f : InvoiceItem → ℚ) :
    ∀ (l : List InvoiceItem) (a : ℚ),
      l.foldl (fun sum item => sum + f item) a = a + (l.map f).sum := by
  intro l
  induction l with
  | nil => intro a; simp
  | cons x xs ih =>
      intro a
      simp [List.foldl_cons, ih, add_assoc]

/-- C3: the subtotal is the sum of the item line amounts, and is invariant
under any permutation of the item list. -/
theorem calculateInvoiceSubtotal_spec (items : List InvoiceItem) :
    calculateInvoiceSubtotal items = (items.map calculateItemTotal).sum ∧
    ∀ items' : List InvoiceItem, items.Perm items' →
      calculateInvoiceSubtotal items = calculateInvoiceSubtotal items' := by
  constructor
  · simpa using foldl_add_map calculateItemTotal items 0
  · intro items' hperm
    have h1 := foldl_add_map calculateItemTotal items 0
    have h2 := foldl_add_map calculateItemTotal items' 0
    have hsum : (items.map calculateItemTotal).sum
        = (items'.map calculateItemTotal).sum :=
      (hperm.map calculateItemTotal).sum_eq
    simp [calculateInvoiceSubtotal, h1, h2, hsum]

/-- Closed instance of `calculateInvoiceSubtotal_spec`: a concrete
two-item list and its transposition have the same subtotal. -/
theorem calculateInvoiceSubtotal_spec_witness :
    calculateInvoiceSubtotal
        [{ id := "a", name := "a", description := none,
           quantity := 2, price := 100, discount := some 10 },
         { id := "b", name := "b", description := none,
           quantity := 50, price := 50, discount := none }] =
      calculateInvoiceSubtotal
        [{ id := "b", name := "b", description := none,
           quantity := 50, price := 50, discount := none },
         { id := "a", name := "a", description := none,
           quantity := 2, price := 100, discount := some 10 }] :=
  (calculateInvoiceSubtotal_spec _).2 _ (List.Perm.swap _ _ _)

/-! ## Invoice record manager (the `useInvoices` hook)

State is the loaded invoice collection (`invoices : List Invoice`).  Each
operation's local-state branch is embedded as a pure state transformer;
clock reads are explicit parameters. -/

/-- A row of the `invoice_items` table (migration `invoice_items` columns,
plus the `updated_at` stamp the hook writes on locally created items). -/
structure InvoiceItemRow where
  id : String
  invoice_id : String
  name : String
  description : Option String
  quantity : ℚ
  price : ℚ
  discount : Option ℚ
  created_at : String
  updated_at : String
  deriving Repr, DecidableEq

/-- A row of the `invoices` table (migration `invoices` columns) together
with its eagerly attached `invoice_items`, as in the hook's `Invoice` type.
The eagerly joined `client` record is omitted: no manager operation reads
or writes it (`updateInvoice` spreads it through unchanged). -/
structure Invoice where
  id : String
  user_id : String
  client_id : String
  invoice_number : String
  status : String
  subtotal : ℚ
  discount : ℚ
  tax_rate : ℚ
  tax_amount : ℚ
  total : ℚ
  currency : String
  issue_date : String
  due_date : String
  notes : Option String
  terms : Option String
  payment_link : Option String
  created_at : String
  updated_at : String
  invoice_items : List InvoiceItemRow
  deriving Repr, DecidableEq

/-- Type `Omit<InvoiceUpdate, 'id' | 'user_id'>`: a partial patch; `none` means
the field is absent from the patch.  For nullable columns the inner
`Option` is the column's nullability. -/
structure InvoiceUpdatePatch where
  client_id : Option String := none
  invoice_number : Option String := none
  status : Option String := none
  subtotal : Option ℚ := none
  discount : Option ℚ := none
  tax_rate : Option ℚ := none
  tax_amount : Option ℚ := none
  total : Option ℚ := none
  currency : Option String := none
  issue_date : Option String := none
  due_date : Option String := none
  notes : Option (Option String) := none
  terms : Option (Option String) := none
  payment_link : Option (Option String) := none
  deriving Repr, DecidableEq

/-- The JS spread `{ ...invoice, ...invoiceData, updated_at: now }`:
fields present in the patch overwrite, `updated_at` is stamped. -/
def applyUpdate (now : String) (p : InvoiceUpdatePatch) (inv : Invoice) :
    Invoice :=
  { inv with
    client_id := p.client_id.getD inv.client_id
    invoice_number := p.invoice_number.getD inv.invoice_number
    status := p.status.getD inv.status
    subtotal := p.subtotal.getD inv.subtotal
    discount := p.discount.getD inv.discount
    tax_rate := p.tax_rate.getD inv.tax_rate
    tax_amount := p.tax_amount.getD inv.tax_amount
    total := p.total.getD inv.total
    currency := p.currency.getD inv.currency
    issue_date := p.issue_date.getD inv.issue_date
    due_date := p.due_date.getD inv.due_date
    notes := p.notes.getD inv.notes
    terms := p.terms.getD inv.terms
    payment_link := p.payment_link.getD inv.payment_link
    updated_at := now }

/-- Operation `updateInvoice` (local-state branch): map over the collection, patching
the invoice whose `id` matches. -/
def updateInvoice (now : String) (id : String) (p : InvoiceUpdatePatch)
    (invoices : List Invoice) : List Invoice :=
  invoices.map (fun inv => if inv.id = id then applyUpdate now p inv else inv)

/-- Operation `markAsPaid`: `updateInvoice(id, { status: 'paid' })`. -/
def markAsPaid (now : String) (id : String) (invoices : List Invoice) :
    List Invoice :=
  updateInvoice now id { status := some ("paid") } invoices

/-- Operation `sendInvoice`: builds `paymentLink = origin + "/invoice/" + id` and
calls `updateInvoice(id, { status: 'sent', payment_link: paymentLink })`. -/
def sendInvoice (origin : String) (now : String) (id : String)
    (invoices : List Invoice) : List Invoice :=
  let paymentLink := origin ++ "/invoice/" ++ id
  updateInvoice now id
    { status := some ("sent"), payment_link := some (some paymentLink) }
    invoices

/-- Operation `deleteInvoice` (local-state branch):
`prev.filter(invoice => invoice.id !== id)`. -/
def deleteInvoice (id : String) (invoices : List Invoice) : List Invoice :=
  invoices.filter (fun inv => inv.id != id)

/-- Operation `getInvoicesByStatus`:
`invoices.filter(invoice => invoice.status === status)`. -/
def getInvoicesByStatus (status : String) (invoices : List Invoice) :
    List Invoice :=
  invoices.filter (fun inv => inv.status == status)

/-- JS `s.padStart(4, '0')`: left-pad with `'0'` up to length 4; a string
already at least 4 long is returned unchanged. -/
def padStartFourZero (s : String) : String :=
  if s.length < 4 then String.mk (List.replicate (4 - s.length) '0') ++ s
  else s

/-- Operation `generateInvoiceNumber` (local-state branch):
`invoiceCount = invoices.length + 1`, result
`INV-<year>-<invoiceCount.toString().padStart(4,'0')>`. -/
def generateInvoiceNumber (year : Nat) (invoices : List Invoice) : String :=
  let invoiceCount := invoices.length + 1
  "INV-" ++ toString year ++ "-" ++ padStartFourZero (toString invoiceCount)

/-- Type `Omit<InvoiceItemInsert, 'invoice_id'>`: an item payload as passed to
`createInvoice`. -/
structure ItemInsert where
  name : String
  description : Option String
  quantity : ℚ
  price : ℚ
  discount : Option ℚ
  deriving Repr, DecidableEq

/-- Type `Omit<InvoiceInsert, 'user_id' | 'client_id' | 'invoice_number'>`:
the invoice fields the caller supplies to `createInvoice`. -/
structure InvoiceInsertData where
  status : String
  subtotal : ℚ
  discount : ℚ
  tax_rate : ℚ
  tax_amount : ℚ
  total : ℚ
  currency : String
  issue_date : String
  due_date : String
  notes : Option String
  terms : Option String
  payment_link : Option String
  deriving Repr, DecidableEq

/-- Operation `createInvoice` (local-state branch): throws when no user is logged in;
otherwise builds the new invoice with a generated number, ids derived from
the clock, the items re-keyed to the new invoice id, and prepends it to the
collection.  Returns the new invoice and the new collection. -/
def createInvoice (user : Option String) (nowMs : Nat) (nowIso : String)
    (year : Nat) (clientId : String) (items : List ItemInsert)
    (invoiceData : InvoiceInsertData) (invoices : List Invoice) :
    Except String (Invoice × List Invoice) :=
  match user with
  | none => .error ("No user logged in")
  | some uid =>
      let invoiceNumber := generateInvoiceNumber year invoices
      let newId := "mock-inv-" ++ toString nowMs
      let newInvoice : Invoice :=
        { id := newId
          user_id := uid
          client_id := clientId
          invoice_number := invoiceNumber
          status := invoiceData.status
          subtotal := invoiceData.subtotal
          discount := invoiceData.discount
          tax_rate := invoiceData.tax_rate
          tax_amount := invoiceData.tax_amount
          total := invoiceData.total
          currency := invoiceData.currency
          issue_date := invoiceData.issue_date
          due_date := invoiceData.due_date
          notes := invoiceData.notes
          terms := invoiceData.terms
          payment_link := invoiceData.payment_link
          created_at := nowIso
          updated_at := nowIso
          invoice_items := items.mapIdx (fun index item =>
            { id := "mock-item-" ++ toString nowMs ++ "-" ++ toString index
              invoice_id := newId
              name := item.name
              description := item.description
              quantity := item.quantity
              price := item.price
              discount := item.discount
              created_at := nowIso
              updated_at := nowIso }) }
      .ok (newInvoice, newInvoice :: invoices)

/-- The creation form's item-count rule (`CreateInvoice.tsx`,
`invoiceSchema`): `items: yup.array().of(...).min(1)`. -/
def itemsMinOneValid (items : List ItemInsert) : Bool :=
  1 ≤ items.length

/-- Status of the invoice with the given id, if present. -/
def statusAt (invoices : List Invoice) (id : String) : Option String :=
  (invoices.find? (fun inv => inv.id == id)).map Invoice.status

/-! ## Concrete fixtures (the hook's mock data) for closed witnesses -/

/-- The mock invoice item of the hook's `mockInvoices`. -/
def demoItemRow : InvoiceItemRow :=
  { id := "mock-item-1"
    invoice_id := "mock-inv-1"
    name := "Web Development Services"
    description := none
    quantity := 50
    price := 50
    discount := none
    created_at := "2024-01-15T10:00:00Z"
    updated_at := "2024-01-15T10:00:00Z" }

/-- The mock invoice of the hook's `mockInvoices` (status `sent`). -/
def demoInvoice : Invoice :=
  { id := "mock-inv-1"
    user_id := "admin@invoicepro.com"
    client_id := "mock-1"
    invoice_number := "INV-2024-0001"
    status := "sent"
    subtotal := 2500
    discount := 0
    tax_rate := 17 / 2
    tax_amount := 425 / 2
    total := 5425 / 2
    currency := "USD"
    issue_date := "2024-01-15"
    due_date := "2024-02-15"
    notes := some ("Thank you for your business!")
    terms := none
    payment_link := none
    created_at := "2024-01-15T10:00:00Z"
    updated_at := "2024-01-15T10:00:00Z"
    invoice_items := [demoItemRow] }

/-- The demo invoice already in status `paid`. -/
def demoPaidInvoice : Invoice :=
  { demoInvoice with status := "paid" }

/-! ## Claims about the record manager -/

/-- C4: for every user state holding `n` existing invoices,
`generateInvoiceNumber` returns `INV-<year>-<n+1 padded with zeros to 4
digits>`; in particular with 3 existing invoices it returns
`INV-<year>-0004`. -/
theorem generateInvoiceNumber_spec (year : Nat) (invoices : List Invoice) :
    generateInvoiceNumber year invoices =
      "INV-" ++ toString year ++ "-" ++
        padStartFourZero (toString (invoices.length + 1)) ∧
    (invoices.length = 3 →
      generateInvoiceNumber year invoices =
        "INV-" ++ toString year ++ "-0004") := by
  constructor
  · rfl
  · intro h
    have hpad : padStartFourZero (toString (invoices.length + 1)) = "0004" := by
      rw [h]; decide
    have h1 : generateInvoiceNumber year invoices =
        "INV-" ++ toString year ++ "-" ++
          padStartFourZero (toString (invoices.length + 1)) := rfl
    rw [h1, hpad, String.append_assoc,
      show ("-" ++ "0004" : String) = "-0004" from rfl]

/-- Closed instance of `generateInvoiceNumber_spec` for a user holding 3
existing invoices. -/
theorem generateInvoiceNumber_spec_witness :
    generateInvoiceNumber 2024 [demoInvoice, demoInvoice, demoInvoice] =
      "INV-" ++ toString 2024 ++ "-0004" :=
  (generateInvoiceNumber_spec 2024 [demoInvoice, demoInvoice, demoInvoice]).2
    rfl

/-- C9: `getInvoicesByStatus s` returns exactly the invoices whose stored
`status` field equals `s` (so membership never depends on due-date versus
current-date comparison), and the result is a sublist of the collection,
which the pure filter leaves unmodified. -/
theorem getInvoicesByStatus_spec (status : String) (invoices : List Invoice) :
    (∀ inv : Invoice, inv ∈ getInvoicesByStatus status invoices ↔
      inv ∈ invoices ∧ inv.status = status) ∧
    (getInvoicesByStatus status invoices).Sublist invoices := by
  constructor
  · intro inv
    simp [getInvoicesByStatus, List.mem_filter]
  · exact List.filter_sublist invoices

/-- Closed instance of `getInvoicesByStatus_spec` on a two-invoice
collection with distinct stored statuses. -/
theorem getInvoicesByStatus_spec_witness :
    (∀ inv : Invoice,
      inv ∈ getInvoicesByStatus ("overdue") [demoInvoice, demoPaidInvoice] ↔
      inv ∈ [demoInvoice, demoPaidInvoice] ∧ inv.status = "overdue") ∧
    (getInvoicesByStatus ("overdue")
        [demoInvoice, demoPaidInvoice]).Sublist [demoInvoice, demoPaidInvoice] :=
  getInvoicesByStatus_spec ("overdue") [demoInvoice, demoPaidInvoice]

/-- C8: in a well-formed state (every attached item's owning-invoice
reference equals its parent invoice's id), deleting an invoice leaves no
invoice with that id and no item whose owning-invoice reference is that id
(cascade removal: items travel with their invoice). -/
theorem deleteInvoice_spec (id : String) (invoices : List Invoice)
    (hwf : ∀ inv ∈ invoices, ∀ it ∈ inv.invoice_items, it.invoice_id = inv.id) :
    (∀ inv ∈ deleteInvoice id invoices, inv.id ≠ id) ∧
    (∀ inv ∈ deleteInvoice id invoices,
      ∀ it ∈ inv.invoice_items, it.invoice_id ≠ id) := by
  have hmem : ∀ inv ∈ deleteInvoice id invoices, inv ∈ invoices ∧ inv.id ≠ id := by
    intro inv hinv
    have h := List.mem_filter.mp hinv
    refine ⟨h.1, ?_⟩
    simpa using h.2
  constructor
  · intro inv hinv
    exact (hmem inv hinv).2
  · intro inv hinv it hit
    have h1 := hmem inv hinv
    rw [hwf inv h1.1 it hit]
    exact h1.2

/-- Closed instance of `deleteInvoice_spec`: deleting the demo invoice
from a concrete well-formed state removes it and its item. -/
theorem deleteInvoice_spec_witness :
    (∀ inv ∈ deleteInvoice ("mock-inv-1") [demoInvoice], inv.id ≠ "mock-inv-1") ∧
    (∀ inv ∈ deleteInvoice ("mock-inv-1") [demoInvoice],
      ∀ it ∈ inv.invoice_items, it.invoice_id ≠ "mock-inv-1") :=
  deleteInvoice_spec ("mock-inv-1") [demoInvoice] (by decide)

/-- C10: `sendInvoice` imposes no guard on the current status: whatever
the matching invoice's prior status (including `paid`), after the call it
has status `sent` and a `payment_link` of `origin ++ "/invoice/" ++ id`,
whose final path segment is the invoice id; every non-matching invoice is
left unchanged, and the collection keeps its length. -/
theorem sendInvoice_spec (origin now id : String) (invoices : List Invoice) :
    (∀ inv ∈ sendInvoice origin now id invoices, inv.id = id →
      inv.status = "sent" ∧
      inv.payment_link = some (origin ++ "/invoice/" ++ id) ∧
      ∃ p : String, origin ++ "/invoice/" ++ id = p ++ "/" ++ id) ∧
    (∀ inv ∈ invoices, inv.id ≠ id → inv ∈ sendInvoice origin now id invoices) ∧
    (sendInvoice origin now id invoices).length = invoices.length := by
  refine ⟨?_, ?_, ?_⟩
  · intro inv hinv hid
    obtain ⟨inv0, hmem0, heq⟩ := List.mem_map.mp hinv
    by_cases h0 : inv0.id = id
    · rw [if_pos h0] at heq
      subst heq
      refine ⟨rfl, rfl, origin ++ "/invoice", ?_⟩
      rw [show ("/invoice/" : String) = "/invoice" ++ "/" from rfl,
        ← String.append_assoc origin]
    · rw [if_neg h0] at heq
      subst heq
      exact absurd hid h0
  · intro inv hmem hne
    exact List.mem_map.mpr ⟨inv, hmem, if_neg hne⟩
  · simp [sendInvoice, updateInvoice]

/-- Closed instance of `sendInvoice_spec` on a collection whose matching
invoice is already `paid`. -/
theorem sendInvoice_spec_witness :
    (∀ inv ∈ sendInvoice ("https://app.example") ("2024-03-01T00:00:00Z")
        ("mock-inv-1") [demoPaidInvoice],
      inv.id = "mock-inv-1" →
      inv.status = "sent" ∧
      inv.payment_link =
        some ("https://app.example" ++ "/invoice/" ++ "mock-inv-1") ∧
      ∃ p : String, "https://app.example" ++ "/invoice/" ++ "mock-inv-1" =
        p ++ "/" ++ "mock-inv-1") ∧
    (∀ inv ∈ [demoPaidInvoice], inv.id ≠ "mock-inv-1" →
      inv ∈ sendInvoice ("https://app.example") ("2024-03-01T00:00:00Z")
        ("mock-inv-1") [demoPaidInvoice]) ∧
    (sendInvoice ("https://app.example") ("2024-03-01T00:00:00Z")
        ("mock-inv-1") [demoPaidInvoice]).length = [demoPaidInvoice].length :=
  sendInvoice_spec ("https://app.example") ("2024-03-01T00:00:00Z")
    ("mock-inv-1") [demoPaidInvoice]

/-- Applying `applyUpdate` with the mark-paid patch twice: a later application overwrites
an earlier one. -/
theorem applyUpdate_paid_overwrite (t1 t2 : String) (inv : Invoice) :
    applyUpdate t2 { status := some ("paid") }
        (applyUpdate t1 { status := some ("paid") } inv) =
      applyUpdate t2 { status := some ("paid") } inv := rfl

/-- C7: `markAsPaid` is idempotent: a repeat application (at the same or a
later clock reading) yields the same state as a single application at that
clock reading, and after each application the matching invoice's status is
`paid`.  The local-state branch is a total state transformer: neither call
can raise an error. -/
theorem markAsPaid_idempotent (t1 t2 id : String) (invoices : List Invoice) :
    markAsPaid t1 id (markAsPaid t1 id invoices) = markAsPaid t1 id invoices ∧
    markAsPaid t2 id (markAsPaid t1 id invoices) = markAsPaid t2 id invoices ∧
    (∀ inv ∈ markAsPaid t1 id invoices, inv.id = id → inv.status = "paid") ∧
    (∀ inv ∈ markAsPaid t2 id (markAsPaid t1 id invoices),
      inv.id = id → inv.status = "paid") := by
  have hstatus : ∀ (t : String) (s : List Invoice),
      ∀ inv ∈ markAsPaid t id s, inv.id = id → inv.status = "paid" := by
    intro t s inv hinv hid
    obtain ⟨inv0, hmem0, heq⟩ := List.mem_map.mp hinv
    by_cases h0 : inv0.id = id
    · rw [if_pos h0] at heq
      subst heq
      rfl
    · rw [if_neg h0] at heq
      subst heq
      exact absurd hid h0
  have hover : ∀ t t' : String,
      markAsPaid t' id (markAsPaid t id invoices) = markAsPaid t' id invoices := by
    intro t t'
    show List.map _ (List.map _ invoices) = List.map _ invoices
    rw [List.map_map]
    apply List.map_congr_left
    intro inv _
    by_cases h0 : inv.id = id
    · simp only [Function.comp, if_pos h0]
      rw [if_pos (show (applyUpdate t { status := some ("paid") } inv).id = id
        from h0)]
      exact applyUpdate_paid_overwrite t t' inv
    · simp only [Function.comp, if_neg h0]
  exact ⟨hover t1 t1, hover t1 t2, hstatus t1 invoices,
    fun inv hinv hid => hstatus t2 (markAsPaid t1 id invoices) inv hinv hid⟩

/-- Closed instance of `markAsPaid_idempotent` on the demo collection. -/
theorem markAsPaid_idempotent_witness :
    markAsPaid ("t1") ("mock-inv-1")
        (markAsPaid ("t1") ("mock-inv-1") [demoInvoice]) =
      markAsPaid ("t1") ("mock-inv-1") [demoInvoice] ∧
    markAsPaid ("t2") ("mock-inv-1")
        (markAsPaid ("t1") ("mock-inv-1") [demoInvoice]) =
      markAsPaid ("t2") ("mock-inv-1") [demoInvoice] ∧
    (∀ inv ∈ markAsPaid ("t1") ("mock-inv-1") [demoInvoice],
      inv.id = "mock-inv-1" → inv.status = "paid") ∧
    (∀ inv ∈ markAsPaid ("t2") ("mock-inv-1")
        (markAsPaid ("t1") ("mock-inv-1") [demoInvoice]),
      inv.id = "mock-inv-1" → inv.status = "paid") :=
  markAsPaid_idempotent ("t1") ("t2") ("mock-inv-1") [demoInvoice]

/-! ## Status-transition sequences (C6) -/

/-- The status-transition operations of the record manager (`markAsPaid`
and `sendInvoice`); `updateInvoice` with an arbitrary patch is treated
separately, since it can write any status. -/
inductive MgrOp where
  | markPaid (now : String) (id : String)
  | send (origin : String) (now : String) (id : String)
  deriving Repr, DecidableEq

/-- Apply one status-transition operation to the collection. -/
def applyOp : MgrOp → List Invoice → List Invoice
  | .markPaid now id, invoices => markAsPaid now id invoices
  | .send origin now id, invoices => sendInvoice origin now id invoices

/-- Apply a sequence of status-transition operations, left to right. -/
def applyOps (ops : List MgrOp) (invoices : List Invoice) : List Invoice :=
  ops.foldl (fun s op => applyOp op s) invoices

/-- One step of `markAsPaid`/`sendInvoice` keeps an invoice's id and either
keeps its status or writes `paid` or `sent`. -/
def StatusStep (inv inv' : Invoice) : Prop :=
  inv'.id = inv.id ∧
    (inv'.status = inv.status ∨ inv'.status = "paid" ∨ inv'.status = "sent")

/-- Pointwise relation between a list and its image under a map. -/
theorem forall2_map_self {R : Invoice → Invoice → Prop} (f : Invoice → Invoice)
    (h : ∀ inv : Invoice, R inv (f inv)) :
    ∀ l : List Invoice, List.Forall₂ R l (l.map f) := by
  intro l
  induction l with
  | nil => simp
  | cons x xs ih => exact List.Forall₂.cons (h x) ih

/-- Every `applyOp` step is a `StatusStep` pointwise. -/
theorem statusStep_applyOp (op : MgrOp) (invoices : List Invoice) :
    List.Forall₂ StatusStep invoices (applyOp op invoices) := by
  cases op with
  | markPaid now id =>
      show List.Forall₂ StatusStep invoices (invoices.map _)
      apply forall2_map_self
      intro inv
      by_cases h0 : inv.id = id
      · rw [if_pos h0]
        exact ⟨rfl, Or.inr (Or.inl rfl)⟩
      · rw [if_neg h0]
        exact ⟨rfl, Or.inl rfl⟩
  | send origin now id =>
      show List.Forall₂ StatusStep invoices (invoices.map _)
      apply forall2_map_self
      intro inv
      by_cases h0 : inv.id = id
      · rw [if_pos h0]
        exact ⟨rfl, Or.inr (Or.inr rfl)⟩
      · rw [if_neg h0]
        exact ⟨rfl, Or.inl rfl⟩

/-- Relation `StatusStep` composes across successive states. -/
theorem statusStep_trans :
    ∀ {a b c : List Invoice}, List.Forall₂ StatusStep a b →
      List.Forall₂ StatusStep b c → List.Forall₂ StatusStep a c := by
  intro a b c hab
  induction hab generalizing c with
  | nil =>
      intro hbc
      cases hbc
      exact List.Forall₂.nil
  | cons hxy _ ih =>
      intro hbc
      cases hbc with
      | cons hyz hrest =>
          refine List.Forall₂.cons ⟨hyz.1.trans hxy.1, ?_⟩ (ih hrest)
          rcases hyz.2 with h | h | h
          · rw [h]
            exact hxy.2
          · exact Or.inr (Or.inl h)
          · exact Or.inr (Or.inr h)

/-- Any sequence of `markAsPaid`/`sendInvoice` steps is a `StatusStep`
pointwise. -/
theorem statusStep_applyOps (ops : List MgrOp) :
    ∀ invoices : List Invoice,
      List.Forall₂ StatusStep invoices (applyOps ops invoices) := by
  induction ops with
  | nil =>
      intro invoices
      show List.Forall₂ StatusStep invoices invoices
      induction invoices with
      | nil => exact List.Forall₂.nil
      | cons x xs ih => exact List.Forall₂.cons ⟨rfl, Or.inl rfl⟩ ih
  | cons op ops ih =>
      intro invoices
      have hstep := statusStep_applyOp op invoices
      have hrest := ih (applyOp op invoices)
      exact statusStep_trans hstep
        (show List.Forall₂ StatusStep (applyOp op invoices)
          (applyOps (op :: ops) invoices) from hrest)

/-- C6 (amended): across any sequence of `markAsPaid` and `sendInvoice`
calls, every invoice keeps its id, and an invoice whose status is not
`draft` never has status `draft` afterwards.  (`updateInvoice` is excluded:
see `updateInvoice_draft_counterexample`.) -/
theorem noDraftRegression (ops : List MgrOp) (invoices : List Invoice) :
    List.Forall₂ (fun inv inv' =>
        inv'.id = inv.id ∧ (inv.status ≠ "draft" → inv'.status ≠ "draft"))
      invoices (applyOps ops invoices) := by
  refine (statusStep_applyOps ops invoices).imp ?_
  intro inv inv' h
  refine ⟨h.1, fun hnd => ?_⟩
  rcases h.2 with h2 | h2 | h2
  · rw [h2]
    exact hnd
  · rw [h2]
    decide
  · rw [h2]
    decide

/-- Closed instance of `noDraftRegression`: a mark-paid then send sequence
on the demo collection. -/
theorem noDraftRegression_witness :
    List.Forall₂ (fun inv inv' =>
        inv'.id = inv.id ∧ (inv.status ≠ "draft" → inv'.status ≠ "draft"))
      [demoInvoice]
      (applyOps [MgrOp.markPaid ("t1") ("mock-inv-1"),
        MgrOp.send ("https://app.example") ("t2") ("mock-inv-1")]
        [demoInvoice]) :=
  noDraftRegression
    [MgrOp.markPaid ("t1") ("mock-inv-1"),
      MgrOp.send ("https://app.example") ("t2") ("mock-inv-1")]
    [demoInvoice]

/-- The status patch a caller can hand to `updateInvoice` to write status
`draft`. -/
def draftPatch : InvoiceUpdatePatch := { status := some ("draft") }

/-- C6 counterexample: `updateInvoice` applies an arbitrary patch, so a
step of the claimed transition system can move a `sent` invoice back to
`draft`: on the demo collection, one `updateInvoice` call with a
`status: 'draft'` patch does exactly that. -/
theorem updateInvoice_draft_counterexample :
    statusAt [demoInvoice] ("mock-inv-1") = some ("sent") ∧
    statusAt
        (updateInvoice ("2024-03-01T00:00:00Z") ("mock-inv-1") draftPatch
          [demoInvoice])
        ("mock-inv-1") = some ("draft") :=
  ⟨rfl, rfl⟩

/-! ## Invoice creation with an empty item list (C5) -/

/-- C5 (amended): `createInvoice` itself performs no item-count
validation: with a logged-in user and an empty items list it succeeds,
prepending (persisting) an invoice that has no items; the at-least-one-item
rule is enforced only by the creation form's validation schema, which
rejects an empty items list. -/
theorem createInvoice_noItemValidation (uid : String) (nowMs : Nat)
    (nowIso : String) (year : Nat) (clientId : String)
    (invoiceData : InvoiceInsertData) (invoices : List Invoice) :
    (∃ inv : Invoice,
      createInvoice (some uid) nowMs nowIso year clientId [] invoiceData
          invoices = Except.ok (inv, inv :: invoices) ∧
      inv.invoice_items = []) ∧
    itemsMinOneValid [] = false := by
  exact ⟨⟨_, rfl, rfl⟩, rfl⟩

/-- The create operation applied to an empty items list at concrete
inputs. -/
def createEmptyItemsResult : Except String (Invoice × List Invoice) :=
  createInvoice (some ("user-1")) 1700000000000 ("2024-01-01T00:00:00Z")
    2024 ("client-1") []
    { status := "draft", subtotal := 0, discount := 0, tax_rate := 0,
      tax_amount := 0, total := 0, currency := "USD",
      issue_date := "2024-01-01", due_date := "2024-02-01",
      notes := none, terms := none, payment_link := none }
    []

/-- C5 counterexample: calling the create operation with an empty items
list does not fail — it returns success and persists one invoice row (with
zero item rows). -/
theorem createInvoice_emptyItems_counterexample :
    createEmptyItemsResult.isOk = true ∧
    createEmptyItemsResult.map (fun r => r.2.length) = Except.ok 1 ∧
    createEmptyItemsResult.map (fun r => r.1.invoice_items.length) =
      Except.ok 0 :=
  ⟨rfl, rfl, rfl⟩

end InvoicePro
